import Mathlib

/-!
# Verification of the oic_devops request / workflow core

Shallow embedding of the parts of the `oic_devops` repository that the
checked properties talk about:

* insertion-ordered string-keyed dictionaries (Python `dict`) as association
  lists with in-place value replacement;
* `WorkflowResult` with `add_error` / `add_resource` / `merge`
  (src/oic_devops/workflows/base.py);
* `BaseWorkflow.wait_for_operation` (src/oic_devops/workflows/base.py);
* `OICClient.authenticate` / `get_auth_token` / `_prepare_headers` /
  `request` (src/oic_devops/client.py);
* `BaseResource.list_all` and `IntegrationsResource.list_all`
  (src/oic_devops/resources/base.py, integrations.py);
* `ConnectionsResource.create` (src/oic_devops/resources/connections.py);
* `BackupWorkflows.prune_old_backups` (src/oic_devops/workflows/backup.py).

Machine integers are modelled as `Nat`/`Int` (no overflow is relevant);
failing Python code is modelled with `Except`/`Option`; in-place mutation is
modelled by explicit state passing.
-/

namespace OicDevops

/-! ## Python dict model

A Python `dict` is insertion ordered; `d[k] = v` replaces the value in place
when `k` is present and appends `(k, v)` otherwise; `d.update(o)` performs
`d[k] = v` for every `(k, v)` of `o` in order.  We model dicts as association
lists; Python guarantees keys are unique, theorems that need this carry an
explicit `Nodup` hypothesis. -/

def lookup? {α : Type} : List (String × α) → String → Option α
  | [], _ => none
  | p :: t, k' => if k' = p.1 then some p.2 else lookup? t k'

def containsKey {α : Type} (d : List (String × α)) (k : String) : Bool :=
  (lookup? d k).isSome

def dictInsert {α : Type} (d : List (String × α)) (k : String) (v : α) :
    List (String × α) :=
  if containsKey d k then
    d.map (fun p => if p.1 = k then (k, v) else p)
  else
    d ++ [(k, v)]

def dictUpdate {α : Type} (d other : List (String × α)) : List (String × α) :=
  other.foldl (fun acc p => dictInsert acc p.1 p.2) d

/-- Last-binding lookup: the value of the latest entry carrying key `k`
(the binding a Python dict would hold after inserting the entries in order). -/
def lookupLast? {α : Type} (d : List (String × α)) (k : String) : Option α :=
  lookup? d.reverse k

instance {ε α : Type} [DecidableEq ε] [DecidableEq α] : DecidableEq (Except ε α) := fun x y =>
  match x, y with
  | .ok a, .ok b =>
    if h : a = b then .isTrue (congrArg Except.ok h)
    else .isFalse (fun hh => h (Except.ok.inj hh))
  | .error a, .error b =>
    if h : a = b then .isTrue (congrArg Except.error h)
    else .isFalse (fun hh => h (Except.error.inj hh))
  | .ok _, .error _ => .isFalse (fun hh => Except.noConfusion hh)
  | .error _, .ok _ => .isFalse (fun hh => Except.noConfusion hh)

/-! ## `WorkflowResult` (src/oic_devops/workflows/base.py, lines 19-214) -/

/-- Values stored in `details` / `resources` dictionaries (`Any` in the
source).  The only floats stored are two-decimal results of
`round(x, 2)`; `vfloat2 c` represents the float with exact value `c / 100`
(binary floating-point representation error is out of the modelled scope). -/
inductive Val where
  | vint (n : Int)
  | vbool (b : Bool)
  | vstr (s : String)
  | vfloat2 (cents : Nat)
deriving DecidableEq

/-- One entry of `WorkflowResult.errors` (`error_info` built by `add_error`,
base.py lines 46-56).  Keys that the source adds conditionally are `Option`s
(`none` = key absent). -/
structure ErrorInfo where
  message : String
  timestamp : Nat
  exception : Option String
  exception_type : Option String
  resource_id : Option String
deriving DecidableEq

/-- Attribute dictionary of one reported resource (`attrs`/`data` in the
source). -/
abbrev Attrs := List (String × Val)

/-- `WorkflowResult` dataclass (base.py lines 19-35) with its field defaults.
`resources` maps resource kind → (resource id → attribute dict). -/
structure WorkflowResult where
  success : Bool := true
  message : String := ""
  details : List (String × Val) := []
  resources : List (String × List (String × Attrs)) := []
  errors : List ErrorInfo := []
deriving DecidableEq

/-- `WorkflowResult.add_error` (base.py lines 37-59).  `error` carries
`(str(e), e.__class__.__name__)` of the Python exception when present; `now`
is `time.time()`.  `if resource_id:` is a truthiness test, so an empty string
does not add the key. -/
def WorkflowResult.add_error (self : WorkflowResult) (message : String)
    (error : Option (String × String)) (resource_id : Option String)
    (now : Nat) : WorkflowResult :=
  let errorInfo : ErrorInfo :=
    { message := message
      timestamp := now
      exception := error.map Prod.fst
      exception_type := error.map Prod.snd
      resource_id :=
        match resource_id with
        | some r => if r = "" then none else some r
        | none => none }
  { self with errors := self.errors ++ [errorInfo], success := false }

/-- `WorkflowResult.add_resource` (base.py lines 61-73). -/
def WorkflowResult.add_resource (self : WorkflowResult) (resource_type : String)
    (resource_id : String) (data : Attrs) : WorkflowResult :=
  let cur := (lookup? self.resources resource_type).getD []
  let updated := dictInsert self.resources resource_type (dictInsert cur resource_id data)
  { self with resources := updated }

/-- The `resources` part of `WorkflowResult.merge` (base.py lines 98-103):
for each `(resource_type, resources)` of `other`, ensure the key exists
(`self.resources[resource_type] = {}` appends an empty dict when absent) and
then `update` it in place. -/
def mergeResources {α : Type} (a b : List (String × List (String × α))) :
    List (String × List (String × α)) :=
  b.foldl (fun acc p =>
    dictInsert acc p.1 (dictUpdate ((lookup? acc p.1).getD []) p.2)) a

/-- Field values of the `WorkflowResult` that `merge` (base.py lines 75-108)
leaves in `self` before returning it.  `if not other.success` and the message
tests are Python truthiness on `bool` / `str`. -/
def WorkflowResult.merge (self other : WorkflowResult) : WorkflowResult :=
  { success := if other.success = false then false else self.success
    message :=
      if self.message ≠ "" ∧ other.message ≠ "" then
        self.message ++ "; " ++ other.message
      else if other.message ≠ "" then other.message
      else self.message
    details := dictUpdate self.details other.details
    resources := mergeResources self.resources other.resources
    errors := self.errors ++ other.errors }

/-! ### In-place semantics of `merge` (for the frame/effect property)

`merge` assigns only to fields of `self` and ends with `return self`
(base.py line 108); `other` is only read.  We model a two-object heap. -/

inductive ObjRef where
  | a
  | b
deriving DecidableEq

structure Heap where
  objA : WorkflowResult
  objB : WorkflowResult

def Heap.read (h : Heap) : ObjRef → WorkflowResult
  | .a => h.objA
  | .b => h.objB

def Heap.write (h : Heap) : ObjRef → WorkflowResult → Heap
  | .a, v => { h with objA := v }
  | .b, v => { h with objB := v }

/-- `self.merge(other)` as a heap operation: overwrite the receiver's fields
with the merged field values and return the receiver's reference. -/
def mergeInPlace (h : Heap) (self other : ObjRef) : Heap × ObjRef :=
  (h.write self ((h.read self).merge (h.read other)), self)

/-! ## `BaseWorkflow.wait_for_operation` (src/oic_devops/workflows/base.py, lines 280-327)

The loop body calls `check_operation(**kwargs)` and feeds the result to
`check_result`; an `OICError` from the check is caught and the loop keeps
trying.  We model one attempt's observable outcome abstractly.  The second
component of the return value is the total time slept (`time.sleep` is
called with `interval_seconds` after every incomplete attempt, including the
last one). -/

inductive CheckOutcome where
  | ok (complete : Bool)
  | oicError
deriving DecidableEq

/-- The timeout result built after the `for` loop falls through
(base.py lines 321-327). -/
def waitTimeoutResult (max_attempts : Nat) (now : Nat) : WorkflowResult :=
  let result : WorkflowResult := {}
  let result := { result with
    success := false
    message := "Operation did not complete in the allotted time"
    details := dictInsert (dictInsert result.details "attempts" (.vint max_attempts))
      "completed" (.vbool false) }
  result.add_error "Timeout waiting for operation to complete" none none now

/-- The loop of `wait_for_operation`, by recursion on the remaining
attempts; `attempt` is the current index of `range(max_attempts)` and
`slept` the seconds slept so far. -/
def waitFrom (check : Nat → CheckOutcome) (interval_seconds : Nat) (now : Nat)
    (max_attempts : Nat) : Nat → Nat → Nat → WorkflowResult × Nat
  | _, 0, slept => (waitTimeoutResult max_attempts now, slept)
  | attempt, remaining + 1, slept =>
    match check attempt with
    | .ok true =>
      let result : WorkflowResult := {}
      let result := { result with
        details := dictInsert (dictInsert result.details "attempts" (.vint (attempt + 1)))
          "completed" (.vbool true) }
      (result, slept)
    | _ => waitFrom check interval_seconds now max_attempts (attempt + 1) remaining
        (slept + interval_seconds)

/-- `BaseWorkflow.wait_for_operation` (base.py lines 280-327). -/
def wait_for_operation (check : Nat → CheckOutcome) (max_attempts : Nat)
    (interval_seconds : Nat) (now : Nat) : WorkflowResult × Nat :=
  waitFrom check interval_seconds now max_attempts 0 max_attempts 0

/-! ## `OICClient` (src/oic_devops/client.py)

State of the client: `self._auth_token`, `self.auth_expiration_time`, and
the `requests.Session` headers that `authenticate` updates.  HTTP exchanges
are modelled by response values supplied as arguments (transport failures —
`RequestException` — are out of the modelled scope). -/

structure ClientState where
  auth_token : Option String
  auth_expiration_time : Option Nat
  session_headers : List (String × String)
deriving DecidableEq

/-- Response of the token endpoint as `authenticate` consumes it:
`access_token` / `expires_in` are `auth_data.get(...)`; `detail` is the
`detail` field of the error JSON when the body parses (`json_ok`). -/
structure AuthResponse where
  status_code : Nat
  access_token : Option String
  expires_in : Option Nat
  detail : Option String
  json_ok : Bool
  text : String
deriving DecidableEq

/-- Error taxonomy (src/oic_devops/exceptions.py).  `apiError` carries the
`status_code` constructor argument of `OICAPIError`. -/
inductive OICError where
  | authenticationError (message : String)
  | resourceNotFoundError (message : String)
  | validationError (message : String)
  | apiError (message : String) (status_code : Option Nat)
deriving DecidableEq

def OICError.isAuthenticationError : OICError → Bool
  | .authenticationError _ => true
  | _ => false

def OICError.isApiError : OICError → Bool
  | .apiError _ _ => true
  | _ => false

/-- Python truthiness of `self._auth_token` (`if not self._auth_token`):
`None` and the empty string are falsy. -/
def tokenFalsy : Option String → Bool
  | none => true
  | some s => s = ""

/-- Rendering of a Python value inside an f-string: `None` prints as
`"None"`. -/
def pyShow : Option String → String
  | none => "None"
  | some s => s

/-- `OICClient.authenticate` (client.py lines 79-138).  On a 200 response it
stores `auth_data.get('access_token')` into `self._auth_token` and runs the
truthiness check `if not self._auth_token` (line 111), so a missing token
*and* an empty-string token raise `OICAuthenticationError`; with a truthy
token it updates the session headers and falls off the `if` branch with a
bare `return` (line 124) — so despite the declared `-> str` it returns
`None`; the `Except.ok` payload is that Python return value.  On a non-200
response it raises `OICAuthenticationError` with the extracted message. -/
def authenticate (st : ClientState) (resp : AuthResponse) :
    ClientState × Except OICError (Option String) :=
  if resp.status_code = 200 then
    let st := { st with auth_token := resp.access_token
                        auth_expiration_time := resp.expires_in }
    if tokenFalsy st.auth_token then
      (st, .error (.authenticationError "No access token in authentication response"))
    else
      let newHeaders := [("Authorization", "Bearer " ++ pyShow st.auth_token),
                         ("Content-Type", "application/json"),
                         ("Accept", "application/json")]
      let st := { st with session_headers := dictUpdate st.session_headers newHeaders }
      (st, .ok none)
  else
    let base := "Authentication failed with status code " ++ toString resp.status_code
    let msg :=
      if resp.json_ok then
        match resp.detail with
        | some d => base ++ ": " ++ d
        | none => base ++ ": " ++ resp.text
      else base ++ ": " ++ resp.text
    (st, .error (.authenticationError msg))

/-- `OICClient.get_auth_token` (client.py lines 140-153).  The `Bool`
records whether a token exchange was performed.  Note that the refresh
branch returns whatever `authenticate` returns — which is `None`. -/
def get_auth_token (st : ClientState) (authResp : AuthResponse) :
    ClientState × Except OICError (Option String) × Bool :=
  if tokenFalsy st.auth_token then
    let (st', r) := authenticate st authResp
    (st', r, true)
  else
    (st, .ok st.auth_token, false)

/-- `OICClient._prepare_headers` (client.py lines 155-177): builds the
per-request header dict from `get_auth_token()` and overlays the caller's
`custom_headers`. -/
def prepare_headers (st : ClientState) (authResp : AuthResponse)
    (custom : Option (List (String × String))) :
    ClientState × Except OICError (List (String × String)) × Bool :=
  let (st', r, refreshed) := get_auth_token st authResp
  match r with
  | .error e => (st', .error e, refreshed)
  | .ok tokVal =>
    let headers := [("Authorization", "Bearer " ++ pyShow tokVal),
                    ("Content-Type", "application/json"),
                    ("Accept", "application/json")]
    let headers :=
      match custom with
      | some ch => dictUpdate headers ch
      | none => headers
    (st', .ok headers, refreshed)

/-- One HTTP response as `request` consumes it.  `json_fields` is
`response.json()` when the body parses (string-valued fields suffice for
the error extraction); `content` models `response.content` (empty string =
falsy `b''`). -/
structure HttpResponse where
  status_code : Nat
  json_fields : Option (List (String × String))
  text : String
  content : String
deriving DecidableEq

/-- Parsed response data returned by `request` (client.py lines 285-292). -/
inductive RespData where
  | emptyObj
  | jsonData (fields : List (String × String))
  | contentBytes (s : String)
deriving DecidableEq

/-- Error-message extraction for a ≥400 response (client.py lines 263-277):
JSON fields `detail`, `message`, `title` in priority order, then the raw
body text. -/
def extract_api_error_msg (r : HttpResponse) : String :=
  let base := "API request failed with status code " ++ toString r.status_code
  match r.json_fields with
  | some obj =>
    let withField :=
      match lookup? obj "detail" with
      | some d => base ++ ": " ++ d
      | none =>
        match lookup? obj "message" with
        | some m => base ++ ": " ++ m
        | none =>
          match lookup? obj "title" with
          | some t => base ++ ": " ++ t
          | none => base
    withField ++ "\n\n" ++ r.text
  | none => base ++ ": " ++ r.text

/-- Response handling of `request` after the 401-retry check
(client.py lines 257-292): 404 → `OICResourceNotFoundError`; other ≥400 →
`OICAPIError` with the extracted message and status code; 204 / empty body →
`{}`; JSON body → parsed data; unparseable body → `{'content': bytes}`. -/
def handle_response (r : HttpResponse) (url : String) : Except OICError RespData :=
  if r.status_code = 404 then
    .error (.resourceNotFoundError ("Resource not found: " ++ url))
  else if 400 ≤ r.status_code then
    .error (.apiError (extract_api_error_msg r) (some r.status_code))
  else if r.status_code = 204 ∨ r.content = "" then
    .ok .emptyObj
  else
    match r.json_fields with
    | some obj => .ok (.jsonData obj)
    | none => .ok (.contentBytes r.content)

/-- Observable side effects of one `request` call: how many token exchanges
ran and the `Authorization` value of the explicit per-request headers of
each attempt, in order. -/
structure RequestTrace where
  refreshes : Nat
  sent_auth : List String
deriving DecidableEq

/-- `OICClient.request` called with `retry_auth=True` (client.py lines
179-295).  `server` gives the HTTP response of attempt 0 and of the single
retry (attempt 1).  On a 401 first response the code clears `_auth_token`
and re-enters `request` once with `retry_auth=False` (lines 244-255); inside
that retry a second 401 is handled by the generic ≥400 branch.  (The
`integrationInstance` query parameter and the request body are irrelevant to
the modelled behaviour and omitted.) -/
def request_with_retry (st : ClientState) (server : Nat → HttpResponse)
    (authResp : AuthResponse) (custom : Option (List (String × String)))
    (url : String) : ClientState × Except OICError RespData × RequestTrace :=
  let (st1, hr, ref0) := prepare_headers st authResp custom
  let n0 : Nat := if ref0 then 1 else 0
  match hr with
  | .error e => (st1, .error e, ⟨n0, []⟩)
  | .ok headers0 =>
    let auth0 := (lookup? headers0 "Authorization").getD ""
    let resp0 := server 0
    if resp0.status_code = 401 then
      let st2 := { st1 with auth_token := none }
      let (st3, hr1, ref1) := prepare_headers st2 authResp custom
      let n1 : Nat := if ref1 then 1 else 0
      match hr1 with
      | .error e => (st3, .error e, ⟨n0 + n1, [auth0]⟩)
      | .ok headers1 =>
        let auth1 := (lookup? headers1 "Authorization").getD ""
        let resp1 := server 1
        (st3, handle_response resp1 url, ⟨n0 + n1, [auth0, auth1]⟩)
    else
      (st1, handle_response resp0 url, ⟨n0, [auth0]⟩)

/-! ## Pagination (src/oic_devops/resources/base.py lines 81-127 and
src/oic_devops/resources/integrations.py lines 55-89)

A list response is a JSON dict (possibly carrying `items`, `elements`,
`hasMore`, `limit`, `totalResults` keys) or a bare array; items are
abstracted to `Nat` identifiers.  `totalResults` is part of the wire format
but never read by either `list_all`. -/

structure PageDict where
  items : Option (List Nat)
  elements : Option (List Nat)
  hasMore : Option Bool
  limit : Option Nat
  totalResults : Option Nat
deriving DecidableEq

inductive PageResponse where
  | dict (d : PageDict)
  | arr (l : List Nat)
deriving DecidableEq

/-- Observable outcome of a `list_all` run cut off after `fuel` loop
iterations: `outOfFuel` means the `while` loop was still running with the
given accumulated output. -/
inductive ListAllOutcome where
  | ok (items : List Nat)
  | keyError (key : String)
  | typeError
  | outOfFuel (collected : List Nat)
deriving DecidableEq

/-- Loop of `BaseResource.list_all` (base.py lines 98-127), observed for at
most `fuel` iterations.  `server` maps the requested `offset`
(`params['offset'] = pages`) to the response.  Each iteration: pick the
envelope (`items` / `elements` / bare list), or warn and `return []`
(lines 117-120); then `output.extend(response['items'])` (line 122) —
unconditional, so an `elements` envelope raises `KeyError` and a bare array
raises `TypeError`; then `has_more = response['hasMore']` (line 123),
`pages += 100`, and loop while `has_more is True`. -/
def BaseResource.list_all_go (server : Nat → PageResponse) :
    Nat → List Nat → Nat → ListAllOutcome
  | 0, output, _ => .outOfFuel output
  | fuel + 1, output, pages =>
    match server pages with
    | .arr _ => .typeError
    | .dict d =>
      if d.items.isSome ∨ d.elements.isSome then
        match d.items with
        | none => .keyError "items"
        | some its =>
          match d.hasMore with
          | none => .keyError "hasMore"
          | some hm =>
            if hm then BaseResource.list_all_go server fuel (output ++ its) (pages + 100)
            else .ok (output ++ its)
      else .ok []

/-- `BaseResource.list_all` entry point: `output = []`, `pages = 0`. -/
def BaseResource.list_all (server : Nat → PageResponse) (fuel : Nat) : ListAllOutcome :=
  BaseResource.list_all_go server fuel [] 0

/-- Loop of `IntegrationsResource.list_all` (integrations.py lines 55-89),
observed for at most `fuel` iterations.  `self.list(params)` returns the raw
response dict; `content['items']` and `content['hasMore']` raise `KeyError`
when absent; `if not content.get('limit'): continue` skips the offset
increment when `limit` is absent or 0 (falsy), otherwise
`pages += content['limit']`; the loop runs while `has_more is True`. -/
def IntegrationsResource.list_all_go (server : Nat → PageDict) :
    Nat → List Nat → Nat → ListAllOutcome
  | 0, output, _ => .outOfFuel output
  | fuel + 1, output, pages =>
    let content := server pages
    match content.items with
    | none => .keyError "items"
    | some its =>
      match content.hasMore with
      | none => .keyError "hasMore"
      | some hm =>
        let nextPages :=
          match content.limit with
          | none => pages
          | some 0 => pages
          | some l => pages + l
        if hm then IntegrationsResource.list_all_go server fuel (output ++ its) nextPages
        else .ok (output ++ its)

/-- `IntegrationsResource.list_all` entry point: `output = []`, `pages = 0`. -/
def IntegrationsResource.list_all (server : Nat → PageDict) (fuel : Nat) : ListAllOutcome :=
  IntegrationsResource.list_all_go server fuel [] 0

/-- A server exhibiting the behaviour of the checked scenario: every page
reports `totalResults = 937`, one item, and `hasMore = true` — also past
offset 500 and the reported total. -/
def adversarialPage : PageDict :=
  { items := some [0], elements := none, hasMore := some true,
    limit := some 100, totalResults := some 937 }

def adversarialServer : Nat → PageResponse := fun _ => .dict adversarialPage

def adversarialDictServer : Nat → PageDict := fun _ => adversarialPage

/-- A dict response carrying none of the recognised keys (the
`else`-branch "unexpected response format" input of base.py line 117). -/
def noEnvelopeServer : Nat → PageResponse :=
  fun _ => .dict { items := none, elements := none, hasMore := none,
                   limit := none, totalResults := none }

/-! ## `ConnectionsResource.create` (src/oic_devops/resources/connections.py, lines 180-204) -/

/-- A network call issued through the client (`BaseResource.create` →
`self.client.post(self._get_endpoint(), data=data, params=params)`). -/
inductive NetCall where
  | post (endpoint : String) (dataKeys : List String)
deriving DecidableEq

def connections_base_path : String := "/ic/api/integration/v1/connections"

def connectionsRequiredFields : List String := ["name", "identifier", "connectionType"]

/-- `ConnectionsResource.create` over the key set of the `data` dict: the
validation loop (lines 199-202) raises `OICValidationError` at the first
required field missing from `data`, before any network call; otherwise the
call is delegated to the gateway (line 204).  The result is the raised
error, if any, together with the list of network calls issued. -/
def ConnectionsResource.create (dataKeys : List String) :
    Option OICError × List NetCall :=
  match connectionsRequiredFields.find? (fun f => ! dataKeys.contains f) with
  | some f =>
    (some (.validationError ("Missing required field for connection creation: " ++ f)), [])
  | none => (none, [.post connections_base_path dataKeys])

/-! ## `BackupWorkflows.prune_old_backups` (src/oic_devops/workflows/backup.py, lines 2301-2481) -/

/-- Helper for `*` in a glob pattern: try the rest of the pattern against
every suffix of the string. -/
def tryAllSuffixes (g : List Char → Bool) : List Char → Bool
  | [] => g []
  | c :: s' => g (c :: s') || tryAllSuffixes g s'

/-- Shell-style `*` glob matching (the part of `glob.glob` relevant here:
matching one path component against a pattern). -/
def globMatch : List Char → List Char → Bool
  | [], s => s.isEmpty
  | '*' :: ps, s => tryAllSuffixes (globMatch ps) s
  | _ :: _, [] => false
  | p :: ps, c :: s => p = c && globMatch ps s

def globMatchStr (pat s : String) : Bool :=
  globMatch pat.toList s.toList

/-- One directory entry of the backup directory. -/
structure FSEntry where
  name : String
  is_dir : Bool
  mtime : Int
  size : Nat
deriving DecidableEq

/-- The filesystem state `prune_old_backups` observes: whether the backup
directory exists and its entries. -/
structure BackupFS where
  dir_exists : Bool
  entries : List FSEntry
deriving DecidableEq

/-- Parsed per-backup record (`backups_info` entries, backup.py 2389-2396). -/
structure BackupInfo where
  path : String
  timestamp : Int
  size : Nat
  is_dir : Bool
deriving DecidableEq

/-- Names bound at module level in workflows/backup.py (imports, lines
8-17).  `re` is not among them. -/
def backupModuleNames : List String :=
  ["datetime", "glob", "json", "os", "shutil", "List", "Optional",
   "OICClient", "OICError", "BaseWorkflow", "WorkflowResult"]

/-- The per-backup `try` body (backup.py lines 2362-2396).  Its first
statement, `timestamp_match = re.search(r'_(\d\x7b8\x7d_\d\x7b6\x7d)', filename)`
(line 2365), references the unbound name `re` — the module never imports it
— so evaluating it raises `NameError` before anything else in the block
runs; the blanket `except Exception` (line 2398) catches it, logs a warning
and skips the entry.  The timestamp/size extraction of lines 2367-2396 is
therefore unreachable and not modelled further. -/
def parse_backup_info (_ : FSEntry) : Except String BackupInfo :=
  if backupModuleNames.contains "re" then
    .error "unreachable"
  else
    .error "NameError: name 're' is not defined"

/-- Stable descending insertion by timestamp, modelling
`backups_info.sort(key=lambda x: x['timestamp'], reverse=True)` (backup.py
line 2405): Python's sort is stable, and `reverse=True` keeps equal keys in
original order. -/
def insertByTimestampDesc (b : BackupInfo) : List BackupInfo → List BackupInfo
  | [] => [b]
  | x :: t =>
    if x.timestamp < b.timestamp then b :: x :: t
    else x :: insertByTimestampDesc b t

def sortByTimestampDesc (l : List BackupInfo) : List BackupInfo :=
  l.foldl (fun acc b => insertByTimestampDesc b acc) []

/-- Python `round(num / den, 2)` on an exact non-negative quotient: the
result in hundredths, rounding half to even.  (The binary-float
representation error of the source's `float` arithmetic is out of the
modelled scope.) -/
def pyRoundDiv2 (num den : Nat) : Nat :=
  let scaled := num * 100
  let q := scaled / den
  let r := scaled % den
  if den < 2 * r then q + 1
  else if 2 * r < den then q
  else if q % 2 = 0 then q else q + 1

/-- Rendering of a non-negative two-decimal Python float in an f-string
(`0.0`, `12.5`, `12.34`), from its value in hundredths. -/
def pyFloatStr (cents : Nat) : String :=
  let ip := cents / 100
  let fr := cents % 100
  let frStr :=
    if fr = 0 then "0"
    else if fr % 10 = 0 then toString (fr / 10)
    else if fr < 10 then "0" ++ toString fr
    else toString fr
  toString ip ++ "." ++ frStr

def zipGlob : String := "oic_*_backup_*.zip"

def dirGlob : String := "oic_*_backup_*"

set_option maxHeartbeats 1000000 in
/-- `BackupWorkflows.prune_old_backups` (backup.py lines 2301-2481).
`now` is `datetime.datetime.now()` and `ts` the `time.time()` used by
`add_error`, both as epoch seconds.  Returns the `WorkflowResult` and the
list of paths actually removed from the filesystem (empty in a dry run;
removal itself is modelled as always succeeding). -/
def prune_old_backups (backup_dir : String) (fs : BackupFS)
    (retention_days : Int) (retention_count : Nat) (dry_run : Bool)
    (now : Int) (ts : Nat) : WorkflowResult × List String :=
  let result0 : WorkflowResult := {}
  let dryRunStr := if dry_run then " (DRY RUN)" else ""
  let result0 := { result0 with message := "Pruning old backups" ++ dryRunStr }
  if fs.dir_exists = false then
    let r := { result0 with success := false
                            message := "Backup directory " ++ backup_dir ++ " does not exist" }
    (r.add_error "Backup directory does not exist" none none ts, [])
  else
    let zip_files := fs.entries.filter (fun e => globMatchStr zipGlob e.name)
    let backup_dirs :=
      (fs.entries.filter (fun e => globMatchStr dirGlob e.name)).filter (fun e => e.is_dir)
    let backup_files := zip_files ++ backup_dirs
    if backup_files.isEmpty then
      ({ result0 with message := "No backups found in " ++ backup_dir }, [])
    else
      let backups_info := backup_files.filterMap (fun e => (parse_backup_info e).toOption)
      let sorted := sortByTimestampDesc backups_info
      let keepDelete :=
        if sorted.length ≤ retention_count then (sorted, ([] : List BackupInfo))
        else
          let rest := sorted.drop retention_count
          let cutoff := now - retention_days * 86400
          (sorted.take retention_count ++ rest.filter (fun b => cutoff ≤ b.timestamp),
           rest.filter (fun b => b.timestamp < cutoff))
      let backups_to_keep := keepDelete.1
      let backups_to_delete := keepDelete.2
      let deleted_backups := backups_to_delete
      let performed := if dry_run then ([] : List String) else backups_to_delete.map (·.path)
      let keep_size : Nat := (backups_to_keep.map (·.size)).sum
      let delete_size : Nat := (backups_to_delete.map (·.size)).sum
      let keep_size_mb := pyRoundDiv2 keep_size (1024 * 1024)
      let delete_size_mb := pyRoundDiv2 delete_size (1024 * 1024)
      let details := dictInsert result0.details "retention_days" (.vint retention_days)
      let details := dictInsert details "retention_count" (.vint retention_count)
      let details := dictInsert details "total_backups" (.vint backups_info.length)
      let details := dictInsert details "backups_to_keep" (.vint backups_to_keep.length)
      let details := dictInsert details "backups_to_delete" (.vint backups_to_delete.length)
      let details := dictInsert details "keep_size_bytes" (.vint keep_size)
      let details := dictInsert details "delete_size_bytes" (.vint delete_size)
      let details := dictInsert details "keep_size_mb" (.vfloat2 keep_size_mb)
      let details := dictInsert details "delete_size_mb" (.vfloat2 delete_size_mb)
      let details := dictInsert details "dry_run" (.vbool dry_run)
      let keep_size_str := pyFloatStr keep_size_mb ++ " MB"
      let delete_size_str := pyFloatStr delete_size_mb ++ " MB"
      let msg :=
        if dry_run then
          "Dry run: Would keep " ++ toString backups_to_keep.length ++ " backups (" ++
            keep_size_str ++ ") and delete " ++ toString backups_to_delete.length ++
            " old backups (" ++ delete_size_str ++ ")"
        else
          "Kept " ++ toString backups_to_keep.length ++ " backups (" ++ keep_size_str ++
            ") and deleted " ++ toString deleted_backups.length ++ " old backups (" ++
            delete_size_str ++ ")"
      ({ result0 with message := msg, details := details }, performed)

/-! ## Dictionary lemmas

Eager `Option` choice and the lookup behaviour of `dictInsert` /
`dictUpdate` / `mergeResources`, used to state and prove the union
properties of `merge`. -/

def orElse' {α : Type} (a b : Option α) : Option α :=
  match a with
  | some v => some v
  | none => b

@[simp] theorem orElse'_some {α : Type} (v : α) (b : Option α) :
    orElse' (some v) b = some v := rfl

@[simp] theorem orElse'_none_left {α : Type} (b : Option α) : orElse' none b = b := rfl

@[simp] theorem orElse'_none_right {α : Type} (a : Option α) : orElse' a none = a := by
  cases a <;> rfl

theorem orElse'_assoc {α : Type} (a b c : Option α) :
    orElse' (orElse' a b) c = orElse' a (orElse' b c) := by
  cases a <;> rfl

theorem orElse'_self {α : Type} (a : Option α) : orElse' a a = a := by
  cases a <;> rfl

theorem lookup?_append {α : Type} (d e : List (String × α)) (k : String) :
    lookup? (d ++ e) k = orElse' (lookup? d k) (lookup? e k) := by
  induction d with
  | nil => rfl
  | cons p t ih =>
    by_cases h : k = p.1 <;> simp [lookup?, h, ih]

theorem lookup?_isSome_iff {α : Type} (d : List (String × α)) (k : String) :
    (lookup? d k).isSome = true ↔ k ∈ d.map Prod.fst := by
  induction d with
  | nil => simp [lookup?]
  | cons p t ih =>
    by_cases h : k = p.1 <;> simp [lookup?, h, ih]

theorem containsKey_reverse {α : Type} (d : List (String × α)) (k : String) :
    containsKey d.reverse k = containsKey d k := by
  unfold containsKey
  rw [Bool.eq_iff_iff, lookup?_isSome_iff, lookup?_isSome_iff, List.map_reverse,
    List.mem_reverse]

theorem containsKey_cons {α : Type} (p : String × α) (t : List (String × α)) (k : String) :
    containsKey (p :: t) k = if k = p.1 then true else containsKey t k := by
  by_cases h : k = p.1 <;> simp [containsKey, lookup?, h]

theorem lookup?_eq_none_of_not_contains {α : Type} (d : List (String × α)) (k : String)
    (h : ¬ containsKey d k = true) : lookup? d k = none := by
  unfold containsKey at h
  rcases hl : lookup? d k with _ | w
  · rfl
  · rw [hl] at h
    simp at h

theorem lookup?_map_replace_self {α : Type} (d : List (String × α)) (k : String) (v : α) :
    lookup? (d.map (fun p => if p.1 = k then (k, v) else p)) k =
      (lookup? d k).map (fun _ => v) := by
  induction d with
  | nil => rfl
  | cons p t ih =>
    by_cases hp : p.1 = k
    · simp [lookup?, hp]
    · have hkp : ¬ k = p.1 := fun h => hp h.symm
      simp [lookup?, hp, hkp, ih]

theorem lookup?_map_replace_other {α : Type} (d : List (String × α)) (k k' : String)
    (v : α) (hk : ¬ k' = k) :
    lookup? (d.map (fun p => if p.1 = k then (k, v) else p)) k' = lookup? d k' := by
  induction d with
  | nil => rfl
  | cons p t ih =>
    by_cases hp : p.1 = k
    · have h1 : ¬ k' = p.1 := fun h => hk (h.trans hp)
      simp [lookup?, hp, h1, hk, ih]
    · by_cases h2 : k' = p.1 <;> simp [lookup?, hp, h2, ih]

theorem lookup?_dictInsert {α : Type} (d : List (String × α)) (k : String) (v : α)
    (k' : String) :
    lookup? (dictInsert d k v) k' = if k' = k then some v else lookup? d k' := by
  unfold dictInsert
  by_cases hc : containsKey d k
  · rw [if_pos hc]
    by_cases hk : k' = k
    · subst hk
      rw [lookup?_map_replace_self, if_pos rfl]
      unfold containsKey at hc
      rcases h : lookup? d k' with _ | w
      · rw [h] at hc
        simp at hc
      · rfl
    · rw [lookup?_map_replace_other d k k' v hk, if_neg hk]
  · rw [if_neg hc, lookup?_append]
    by_cases hk : k' = k
    · subst hk
      rw [lookup?_eq_none_of_not_contains d k' hc]
      simp [lookup?]
    · simp [lookup?, hk]

theorem lookupLast?_dictInsert {α : Type} (d : List (String × α)) (k : String) (v : α)
    (k' : String) :
    lookupLast? (dictInsert d k v) k' = if k' = k then some v else lookupLast? d k' := by
  unfold lookupLast? dictInsert
  by_cases hc : containsKey d k
  · rw [if_pos hc, ← List.map_reverse]
    by_cases hk : k' = k
    · subst hk
      rw [lookup?_map_replace_self, if_pos rfl]
      have hc' : containsKey d.reverse k' = true := by rw [containsKey_reverse]; exact hc
      unfold containsKey at hc'
      rcases h : lookup? d.reverse k' with _ | w
      · rw [h] at hc'
        simp at hc'
      · rfl
    · rw [lookup?_map_replace_other d.reverse k k' v hk, if_neg hk]
  · rw [if_neg hc, List.reverse_append]
    by_cases hk : k' = k <;> simp [lookup?, hk]

theorem lookup?_dictUpdate {α : Type} (d o : List (String × α)) (k : String) :
    lookup? (dictUpdate d o) k = orElse' (lookupLast? o k) (lookup? d k) := by
  induction o generalizing d with
  | nil => rfl
  | cons p t ih =>
    have step : dictUpdate d (p :: t) = dictUpdate (dictInsert d p.1 p.2) t := rfl
    rw [step, ih, lookup?_dictInsert]
    unfold lookupLast?
    rw [List.reverse_cons, lookup?_append, orElse'_assoc]
    by_cases hk : k = p.1 <;> simp [lookup?, hk]

theorem lookupLast?_dictUpdate {α : Type} (d o : List (String × α)) (k : String) :
    lookupLast? (dictUpdate d o) k = orElse' (lookupLast? o k) (lookupLast? d k) := by
  induction o generalizing d with
  | nil => rfl
  | cons p t ih =>
    have step : dictUpdate d (p :: t) = dictUpdate (dictInsert d p.1 p.2) t := rfl
    rw [step, ih, lookupLast?_dictInsert]
    conv =>
      rhs
      rw [lookupLast?, List.reverse_cons, lookup?_append, orElse'_assoc]
    by_cases hk : k = p.1 <;> simp [lookup?, lookupLast?, hk]

/-- Lookup of resource kind `rt` then resource id `id` in a `resources`
map. -/
def lookup2? {α : Type} (r : List (String × List (String × α))) (rt id : String) :
    Option α :=
  (lookup? r rt).bind (fun d => lookup? d id)

/-- Last-binding nested lookup: the value the accumulated Python
dict-of-dicts holds at `(rt, id)` after merging the entries in order (later
entries override earlier ones). -/
def lastNested? {α : Type} :
    List (String × List (String × α)) → String → String → Option α
  | [], _, _ => none
  | p :: t, rt, id =>
    orElse' (lastNested? t rt id) (if rt = p.1 then lookupLast? p.2 id else none)

theorem lastNested?_append {α : Type} (b e : List (String × List (String × α)))
    (rt id : String) :
    lastNested? (b ++ e) rt id = orElse' (lastNested? e rt id) (lastNested? b rt id) := by
  induction b with
  | nil => simp [lastNested?]
  | cons p t ih =>
    have h1 : lastNested? ((p :: t) ++ e) rt id =
        orElse' (lastNested? (t ++ e) rt id)
          (if rt = p.1 then lookupLast? p.2 id else none) := rfl
    rw [h1, ih, orElse'_assoc]
    rfl

theorem lastNested?_of_not_contains {α : Type} (b : List (String × List (String × α)))
    (rt id : String) (h : ¬ containsKey b rt = true) :
    lastNested? b rt id = none := by
  induction b with
  | nil => rfl
  | cons p t ih =>
    rw [containsKey_cons] at h
    by_cases hp : rt = p.1
    · rw [if_pos hp] at h
      simp at h
    · rw [if_neg hp] at h
      simp [lastNested?, hp, ih h]

theorem lastNested?_map_replace_self {α : Type} (b : List (String × List (String × α)))
    (k : String) (x : List (String × α)) (id : String) :
    lastNested? (b.map (fun p => if p.1 = k then (k, x) else p)) k id =
      if containsKey b k then lookupLast? x id else none := by
  induction b with
  | nil => simp [lastNested?, containsKey, lookup?]
  | cons p t ih =>
    rw [containsKey_cons]
    by_cases hp : p.1 = k
    · rw [if_pos (show k = p.1 from hp.symm)]
      by_cases hct : containsKey t k
      · simp [lastNested?, hp, ih, hct, orElse'_self]
      · simp [lastNested?, hp, ih, hct]
    · have hkp : ¬ k = p.1 := fun h => hp h.symm
      rw [if_neg hkp]
      simp [lastNested?, hp, hkp, ih]

theorem lastNested?_map_replace_other {α : Type} (b : List (String × List (String × α)))
    (k rt : String) (x : List (String × α)) (id : String) (hrt : ¬ rt = k) :
    lastNested? (b.map (fun p => if p.1 = k then (k, x) else p)) rt id =
      lastNested? b rt id := by
  induction b with
  | nil => rfl
  | cons p t ih =>
    by_cases hp : p.1 = k
    · have h1 : ¬ rt = p.1 := fun h => hrt (h.trans hp)
      simp [lastNested?, hp, hrt, h1, ih]
    · simp [lastNested?, hp, ih]

theorem lastNested?_dictInsert {α : Type} (b : List (String × List (String × α)))
    (k : String) (x : List (String × α)) (rt id : String) :
    lastNested? (dictInsert b k x) rt id =
      if rt = k then lookupLast? x id else lastNested? b rt id := by
  unfold dictInsert
  by_cases hc : containsKey b k
  · rw [if_pos hc]
    by_cases hk : rt = k
    · subst hk
      rw [lastNested?_map_replace_self, if_pos hc, if_pos rfl]
    · rw [lastNested?_map_replace_other b k rt x id hk, if_neg hk]
  · rw [if_neg hc, lastNested?_append]
    by_cases hk : rt = k
    · subst hk
      rw [lastNested?_of_not_contains b rt id hc]
      simp [lastNested?, lookupLast?]
    · simp [lastNested?, hk, lookupLast?]

theorem keys_map_replace {α : Type} (b : List (String × α)) (k : String) (v : α) :
    (b.map (fun p => if p.1 = k then (k, v) else p)).map Prod.fst = b.map Prod.fst := by
  induction b with
  | nil => rfl
  | cons p t ih =>
    by_cases hp : p.1 = k <;> simp [hp, ih]

theorem keys_dictInsert_nodup {α : Type} (b : List (String × α)) (k : String) (v : α)
    (h : (b.map Prod.fst).Nodup) : ((dictInsert b k v).map Prod.fst).Nodup := by
  unfold dictInsert
  by_cases hc : containsKey b k
  · rw [if_pos hc, keys_map_replace]
    exact h
  · rw [if_neg hc, List.map_append]
    refine List.Nodup.append h (List.nodup_singleton k) ?_
    intro a ha hb
    simp only [List.map_cons, List.map_nil, List.mem_singleton] at hb
    subst hb
    have hs := (lookup?_isSome_iff b a).2 ha
    unfold containsKey at hc
    rw [hs] at hc
    exact absurd rfl hc

theorem lookup2?_step {α : Type} (a : List (String × List (String × α)))
    (p : String × List (String × α)) (rt id : String) :
    lookup2? (dictInsert a p.1 (dictUpdate ((lookup? a p.1).getD []) p.2)) rt id =
      orElse' (if rt = p.1 then lookupLast? p.2 id else none) (lookup2? a rt id) := by
  unfold lookup2?
  rw [lookup?_dictInsert]
  by_cases hk : rt = p.1
  · rw [if_pos hk, if_pos hk, Option.some_bind, lookup?_dictUpdate, hk]
    rcases h : lookup? a p.1 with _ | d
    · rfl
    · rfl
  · rw [if_neg hk, if_neg hk, orElse'_none_left]

theorem lookup2?_mergeResources {α : Type} (a b : List (String × List (String × α)))
    (rt id : String) :
    lookup2? (mergeResources a b) rt id =
      orElse' (lastNested? b rt id) (lookup2? a rt id) := by
  induction b generalizing a with
  | nil => rfl
  | cons p t ih =>
    have step : mergeResources a (p :: t) =
        mergeResources (dictInsert a p.1 (dictUpdate ((lookup? a p.1).getD []) p.2)) t := rfl
    rw [step, ih, lookup2?_step]
    have hl : lastNested? (p :: t) rt id =
        orElse' (lastNested? t rt id) (if rt = p.1 then lookupLast? p.2 id else none) := rfl
    rw [hl, orElse'_assoc]

theorem lastNested?_eq_lookup {α : Type} (b : List (String × List (String × α)))
    (rt id : String) (h : (b.map Prod.fst).Nodup) :
    lastNested? b rt id = lookupLast? ((lookup? b rt).getD []) id := by
  induction b with
  | nil => simp [lastNested?, lookup?, lookupLast?]
  | cons p t ih =>
    rw [List.map_cons, List.nodup_cons] at h
    obtain ⟨hnot, ht⟩ := h
    have hcons : lastNested? (p :: t) rt id =
        orElse' (lastNested? t rt id) (if rt = p.1 then lookupLast? p.2 id else none) := rfl
    by_cases hk : rt = p.1
    · have hc : ¬ containsKey t rt = true := by
        intro hcc
        exact hnot (by
          rw [← hk]
          exact (lookup?_isSome_iff t rt).1 hcc)
      rw [hcons, lastNested?_of_not_contains t rt id hc, orElse'_none_left, if_pos hk]
      have hl : lookup? (p :: t) rt = some p.2 := by simp [lookup?, hk]
      rw [hl]
      rfl
    · rw [hcons, if_neg hk, orElse'_none_right, ih ht]
      have hl : lookup? (p :: t) rt = lookup? t rt := by simp [lookup?, hk]
      rw [hl]

theorem lastNested?_mergeResources {α : Type} (b c : List (String × List (String × α)))
    (rt id : String) (hb : (b.map Prod.fst).Nodup) :
    lastNested? (mergeResources b c) rt id =
      orElse' (lastNested? c rt id) (lastNested? b rt id) := by
  induction c generalizing b with
  | nil => rfl
  | cons p t ih =>
    have step : mergeResources b (p :: t) =
        mergeResources (dictInsert b p.1 (dictUpdate ((lookup? b p.1).getD []) p.2)) t := rfl
    have hnodup := keys_dictInsert_nodup b p.1
      (dictUpdate ((lookup? b p.1).getD []) p.2) hb
    rw [step, ih _ hnodup, lastNested?_dictInsert]
    have hstep : (if rt = p.1 then
          lookupLast? (dictUpdate ((lookup? b p.1).getD []) p.2) id
        else lastNested? b rt id) =
        orElse' (if rt = p.1 then lookupLast? p.2 id else none) (lastNested? b rt id) := by
      by_cases hk : rt = p.1
      · rw [if_pos hk, if_pos hk, lookupLast?_dictUpdate]
        have hD := lastNested?_eq_lookup b p.1 id hb
        rw [hk, hD]
      · rw [if_neg hk, if_neg hk, orElse'_none_left]
    rw [hstep]
    have hl : lastNested? (p :: t) rt id =
        orElse' (lastNested? t rt id) (if rt = p.1 then lookupLast? p.2 id else none) := rfl
    rw [hl, ← orElse'_assoc]

/-! ## Claim theorems -/

/-- C4: `WorkflowResult.merge` is associative: for all workflow results
`a`, `b`, `c`, merging `(a·b)·c` and `a·(b·c)` agree on the success flag, on
the order and content of the concatenated error list, and on the union of
the details and resource maps (pointwise lookup); and merge short-circuits
success to `false` whenever either operand has `success = false`.  The
`Nodup` hypothesis states that `b`'s resource map has no duplicate kinds, as
every Python dict does. -/
theorem c4_merge_associative (a b c : WorkflowResult)
    (hb : (b.resources.map Prod.fst).Nodup) :
    (((a.merge b).merge c).success = (a.merge (b.merge c)).success ∧
      ((a.merge b).success = (a.success && b.success))) ∧
    ((a.merge b).merge c).errors = (a.merge (b.merge c)).errors ∧
    (∀ k, lookup? ((a.merge b).merge c).details k =
      lookup? (a.merge (b.merge c)).details k) ∧
    (∀ rt id, lookup2? ((a.merge b).merge c).resources rt id =
      lookup2? (a.merge (b.merge c)).resources rt id) := by
  refine ⟨⟨?_, ?_⟩, ?_, ?_, ?_⟩
  · cases hb2 : b.success <;> cases hc2 : c.success <;>
      simp [WorkflowResult.merge, hb2, hc2]
  · cases ha2 : a.success <;> cases hb2 : b.success <;>
      simp [WorkflowResult.merge, ha2, hb2]
  · simp [WorkflowResult.merge, List.append_assoc]
  · intro k
    simp only [WorkflowResult.merge]
    rw [lookup?_dictUpdate, lookup?_dictUpdate, lookup?_dictUpdate,
      lookupLast?_dictUpdate, orElse'_assoc]
  · intro rt id
    simp only [WorkflowResult.merge]
    rw [lookup2?_mergeResources, lookup2?_mergeResources, lookup2?_mergeResources,
      lastNested?_mergeResources b.resources c.resources rt id hb, orElse'_assoc]

def c4ErrA : ErrorInfo :=
  { message := "e1", timestamp := 1, exception := none, exception_type := none,
    resource_id := none }

def c4ErrB : ErrorInfo :=
  { message := "e2", timestamp := 2, exception := some "boom",
    exception_type := some "OICAPIError", resource_id := some "i2" }

def c4ResA : WorkflowResult :=
  { success := true, message := "a", details := [("x", .vint 1)],
    resources := [("integration", [("i1", [("name", .vstr "A")])])],
    errors := [c4ErrA] }

def c4ResB : WorkflowResult :=
  { success := false, message := "b",
    details := [("x", .vint 2), ("y", .vbool true)],
    resources := [("integration", [("i2", [("name", .vstr "B")])]),
                  ("connection", [("c1", [("name", .vstr "C")])])],
    errors := [c4ErrB] }

def c4ResC : WorkflowResult :=
  { success := true, message := "",
    details := [("y", .vbool false), ("z", .vstr "zz")],
    resources := [("integration", [("i1", [("name", .vstr "A2")])])],
    errors := [] }

/-- Witness for C4 at concrete results with overlapping keys. -/
theorem c4_witness :
    (c4ResB.resources.map Prod.fst).Nodup ∧
    ((((c4ResA.merge c4ResB).merge c4ResC).success =
        (c4ResA.merge (c4ResB.merge c4ResC)).success ∧
      ((c4ResA.merge c4ResB).success = (c4ResA.success && c4ResB.success))) ∧
    ((c4ResA.merge c4ResB).merge c4ResC).errors =
      (c4ResA.merge (c4ResB.merge c4ResC)).errors ∧
    (∀ k, lookup? (((c4ResA.merge c4ResB).merge c4ResC)).details k =
      lookup? (c4ResA.merge (c4ResB.merge c4ResC)).details k) ∧
    (∀ rt id, lookup2? (((c4ResA.merge c4ResB).merge c4ResC)).resources rt id =
      lookup2? (c4ResA.merge (c4ResB.merge c4ResC)).resources rt id)) :=
  ⟨by decide, c4_merge_associative c4ResA c4ResB c4ResC (by decide)⟩

/-- C5: every `add_error` call sets the success flag to `false` and appends
exactly one error record, for any message, optional cause and optional
resource id; a result that has had an error added never reports
`success = true`. -/
theorem c5_add_error_forces_failure (r : WorkflowResult) (msg : String)
    (error : Option (String × String)) (rid : Option String) (now : Nat) :
    (r.add_error msg error rid now).success = false ∧
    (r.add_error msg error rid now).errors.length = r.errors.length + 1 := by
  constructor
  · rfl
  · simp [WorkflowResult.add_error]

/-- C10: `merge` mutates the receiver in place — the heap cell of the
receiver is overwritten with the merged field values — returns the very
same object reference, and leaves the argument object unmodified. -/
theorem c10_merge_mutates_receiver_only (h : Heap) :
    (mergeInPlace h .a .b).2 = ObjRef.a ∧
    (mergeInPlace h .a .b).1.read .b = h.read .b ∧
    (mergeInPlace h .a .b).1.read .a = (h.read .a).merge (h.read .b) :=
  ⟨rfl, rfl, rfl⟩

theorem waitFrom_timeout_aux (check : Nat → CheckOutcome)
    (interval now maxA : Nat) :
    ∀ remaining attempt slept,
      (∀ i, attempt ≤ i → i < attempt + remaining → check i ≠ .ok true) →
      waitFrom check interval now maxA attempt remaining slept =
        (waitTimeoutResult maxA now, slept + remaining * interval) := by
  intro remaining
  induction remaining with
  | zero =>
    intro attempt slept _
    simp [waitFrom]
  | succ r ih =>
    intro attempt slept h
    have h0 : check attempt ≠ .ok true := h attempt le_rfl (by omega)
    have hstep : waitFrom check interval now maxA attempt (r + 1) slept =
        waitFrom check interval now maxA (attempt + 1) r (slept + interval) := by
      cases hc : check attempt with
      | ok b =>
        cases b with
        | false => simp [waitFrom, hc]
        | true => exact absurd hc h0
      | oicError => simp [waitFrom, hc]
    rw [hstep, ih (attempt + 1) (slept + interval)
      (fun i h1 h2 => h i (by omega) (by omega))]
    have harith : slept + interval + r * interval = slept + (r + 1) * interval := by
      ring
    rw [harith]

/-- C6: when the expected terminal state is never observed within
`max_attempts` checks, `wait_for_operation` returns (rather than raises) a
`WorkflowResult` with `success = false`, a recorded timeout error and the
timeout message, and the total time slept is exactly — in particular at
most — the `max_attempts × interval_seconds` budget. -/
theorem c6_wait_for_operation_timeout (check : Nat → CheckOutcome)
    (max_attempts interval_seconds now : Nat)
    (h : ∀ i, i < max_attempts → check i ≠ .ok true) :
    (wait_for_operation check max_attempts interval_seconds now).1.success = false ∧
    (wait_for_operation check max_attempts interval_seconds now).1.errors.map
        ErrorInfo.message = ["Timeout waiting for operation to complete"] ∧
    (wait_for_operation check max_attempts interval_seconds now).1.message =
      "Operation did not complete in the allotted time" ∧
    (wait_for_operation check max_attempts interval_seconds now).2 =
      max_attempts * interval_seconds ∧
    (wait_for_operation check max_attempts interval_seconds now).2 ≤
      max_attempts * interval_seconds := by
  have haux := waitFrom_timeout_aux check interval_seconds now max_attempts
    max_attempts 0 0 (fun i h1 h2 => h i (by omega))
  unfold wait_for_operation
  rw [haux]
  refine ⟨rfl, rfl, rfl, by omega, by omega⟩

/-- Witness for C6: three attempts that all report "not complete". -/
theorem c6_witness :
    ((wait_for_operation (fun _ => .ok false) 3 2 0).1.success = false ∧
    (wait_for_operation (fun _ => .ok false) 3 2 0).1.errors.map
        ErrorInfo.message = ["Timeout waiting for operation to complete"] ∧
    (wait_for_operation (fun _ => .ok false) 3 2 0).1.message =
      "Operation did not complete in the allotted time" ∧
    (wait_for_operation (fun _ => .ok false) 3 2 0).2 = 3 * 2 ∧
    (wait_for_operation (fun _ => .ok false) 3 2 0).2 ≤ 3 * 2) :=
  c6_wait_for_operation_timeout (fun _ => .ok false) 3 2 0 (by decide)

/-- Whether the raised-error slot of a gateway call holds an
`OICValidationError`. -/
def validationErrorRaised : Option OICError → Bool
  | some (.validationError _) => true
  | _ => false

/-- C7: `ConnectionsResource.create` raises `OICValidationError` and issues
no network call when any of the required fields `name`, `identifier`,
`connectionType` is absent from the data dict; when all three are present it
raises nothing and delegates a single creation request to the gateway. -/
theorem c7_create_validates_required_fields (dataKeys : List String) :
    ((dataKeys.contains "name" = false ∨ dataKeys.contains "identifier" = false ∨
        dataKeys.contains "connectionType" = false) →
      validationErrorRaised (ConnectionsResource.create dataKeys).1 = true ∧
      (ConnectionsResource.create dataKeys).2 = []) ∧
    ((dataKeys.contains "name" = true ∧ dataKeys.contains "identifier" = true ∧
        dataKeys.contains "connectionType" = true) →
      ConnectionsResource.create dataKeys =
        (none, [.post connections_base_path dataKeys])) := by
  constructor
  · intro h
    by_cases hn : dataKeys.contains "name"
    · by_cases hi : dataKeys.contains "identifier"
      · by_cases hc : dataKeys.contains "connectionType"
        · have hn' : "name" ∈ dataKeys := by simpa using hn
          have hi' : "identifier" ∈ dataKeys := by simpa using hi
          have hc' : "connectionType" ∈ dataKeys := by simpa using hc
          simp [hn', hi', hc'] at h
        · have hn' : "name" ∈ dataKeys := by simpa using hn
          have hi' : "identifier" ∈ dataKeys := by simpa using hi
          have hc' : "connectionType" ∉ dataKeys := by simpa using hc
          constructor <;>
            simp [ConnectionsResource.create, connectionsRequiredFields,
              List.find?, hn', hi', hc', validationErrorRaised]
      · have hn' : "name" ∈ dataKeys := by simpa using hn
        have hi' : "identifier" ∉ dataKeys := by simpa using hi
        constructor <;>
          simp [ConnectionsResource.create, connectionsRequiredFields,
            List.find?, hn', hi', validationErrorRaised]
    · have hn' : "name" ∉ dataKeys := by simpa using hn
      constructor <;>
        simp [ConnectionsResource.create, connectionsRequiredFields,
          List.find?, hn', validationErrorRaised]
  · intro ⟨hn, hi, hc⟩
    have hn' : "name" ∈ dataKeys := by simpa using hn
    have hi' : "identifier" ∈ dataKeys := by simpa using hi
    have hc' : "connectionType" ∈ dataKeys := by simpa using hc
    simp [ConnectionsResource.create, connectionsRequiredFields,
      List.find?, hn', hi', hc']

/-- Witness for C7: a dict missing `name`/`connectionType`, and a complete
dict. -/
theorem c7_witness :
    (validationErrorRaised (ConnectionsResource.create ["identifier"]).1 = true ∧
      (ConnectionsResource.create ["identifier"]).2 = []) ∧
    ConnectionsResource.create ["name", "identifier", "connectionType"] =
      (none, [.post connections_base_path ["name", "identifier", "connectionType"]]) :=
  ⟨(c7_create_validates_required_fields ["identifier"]).1 (by decide),
   (c7_create_validates_required_fields ["name", "identifier", "connectionType"]).2
     (by decide)⟩

/-- C1: the checked claim says the pagination collectors terminate within a
configured hard iteration ceiling with at most the reported total (937)
items.  The code has no such ceiling: against a server that reports
`totalResults = 937` but `hasMore = true` on every page (also past offset
500), both `BaseResource.list_all` and `IntegrationsResource.list_all`
are still looping after every finite number of iterations, with the
accumulated output growing by one item per iteration — in particular, after
938 iterations the loop has already collected 938 > 937 items and has not
stopped. -/
theorem c1_list_all_has_no_iteration_ceiling :
    (∀ fuel output pages,
      BaseResource.list_all_go adversarialServer fuel output pages =
        .outOfFuel (output ++ List.replicate fuel 0)) ∧
    (∀ fuel output pages,
      IntegrationsResource.list_all_go adversarialDictServer fuel output pages =
        .outOfFuel (output ++ List.replicate fuel 0)) ∧
    BaseResource.list_all adversarialServer 938 =
      .outOfFuel (List.replicate 938 0) ∧
    937 < (List.replicate 938 (0 : Nat)).length := by
  have hbase : ∀ fuel output pages,
      BaseResource.list_all_go adversarialServer fuel output pages =
        .outOfFuel (output ++ List.replicate fuel 0) := by
    intro fuel
    induction fuel with
    | zero => intro output pages; simp [BaseResource.list_all_go]
    | succ f ih =>
      intro output pages
      rw [BaseResource.list_all_go]
      simp only [adversarialServer, adversarialPage]
      rw [ih (output ++ [0]) (pages + 100)]
      simp [List.replicate_succ, List.append_assoc]
  have hinteg : ∀ fuel output pages,
      IntegrationsResource.list_all_go adversarialDictServer fuel output pages =
        .outOfFuel (output ++ List.replicate fuel 0) := by
    intro fuel
    induction fuel with
    | zero => intro output pages; simp [IntegrationsResource.list_all_go]
    | succ f ih =>
      intro output pages
      rw [IntegrationsResource.list_all_go]
      simp only [adversarialDictServer, adversarialPage]
      rw [ih (output ++ [0]) (pages + 100)]
      simp [List.replicate_succ, List.append_assoc]
  refine ⟨hbase, hinteg, ?_, ?_⟩
  · unfold BaseResource.list_all
    rw [hbase 938 [] 0, List.nil_append]
  · rw [List.length_replicate]
    omega

/-- C9 counterexample to "list_all only completes normally for responses
carrying an `items` key": a dict response with neither recognised envelope
key hits the warning branch (base.py lines 117-120) and `list_all` completes
normally with `[]`, though the response carries no `items` key. -/
theorem c9_counterexample :
    BaseResource.list_all noEnvelopeServer 1 = .ok [] ∧
    noEnvelopeServer 0 = .dict ⟨none, none, none, none, none⟩ :=
  ⟨by decide, rfl⟩

/-- C9 (amended): a page response using the `elements` envelope (an
`elements` key and no `items` key) makes `BaseResource.list_all` raise an
uncaught `KeyError` at `response['items']` instead of returning the page's
elements; and among responses recognised as item-bearing, a run can only
complete normally with a non-empty result when the first page carries an
`items` key (an unrecognised dict returns `[]` normally). -/
theorem c9_elements_envelope_raises_key_error :
    (∀ (server : Nat → PageResponse) (fuel : Nat) (output : List Nat)
        (pages : Nat) (d : PageDict),
      server pages = .dict d → d.items = none → d.elements.isSome = true →
      BaseResource.list_all_go server (fuel + 1) output pages = .keyError "items") ∧
    (∀ (server : Nat → PageResponse) (fuel : Nat) (l : List Nat),
      BaseResource.list_all server fuel = .ok l → l ≠ [] →
      ∃ d, server 0 = .dict d ∧ d.items.isSome = true) := by
  constructor
  · intro server fuel output pages d hs hit hel
    rw [BaseResource.list_all_go, hs]
    simp [hit, hel]
  · intro server fuel l hok hne
    cases fuel with
    | zero =>
      exfalso
      rw [BaseResource.list_all, BaseResource.list_all_go] at hok
      cases hok
    | succ f =>
      rcases hs : server 0 with d | arr
      · rcases hit : d.items with _ | its
        · rcases hel : d.elements with _ | es
          · exfalso
            rw [BaseResource.list_all, BaseResource.list_all_go, hs] at hok
            simp [hit, hel] at hok
            exact hne hok
          · exfalso
            rw [BaseResource.list_all, BaseResource.list_all_go, hs] at hok
            simp [hit, hel] at hok
        · refine ⟨d, rfl, ?_⟩
          rw [hit]
          rfl
      · exfalso
        rw [BaseResource.list_all, BaseResource.list_all_go, hs] at hok
        cases hok

def elementsOnlyPage : PageDict :=
  { items := none, elements := some [7], hasMore := some true, limit := none,
    totalResults := none }

def elementsOnlyServer : Nat → PageResponse := fun _ => .dict elementsOnlyPage

def itemsOnlyPage : PageDict :=
  { items := some [5], elements := none, hasMore := some false, limit := none,
    totalResults := none }

def itemsOnlyServer : Nat → PageResponse := fun _ => .dict itemsOnlyPage

/-- Witness for C9: an `elements`-envelope page raises the `KeyError`, and a
completed non-empty run started from an `items`-envelope page. -/
theorem c9_witness :
    BaseResource.list_all_go elementsOnlyServer 1 [] 0 = .keyError "items" ∧
    (∃ d, itemsOnlyServer 0 = .dict d ∧ d.items.isSome = true) :=
  ⟨(c9_elements_envelope_raises_key_error).1 elementsOnlyServer 0 [] 0 _ rfl rfl rfl,
   (c9_elements_envelope_raises_key_error).2 itemsOnlyServer 1 [5] (by decide)
     (by decide)⟩

/-- A server answering attempt 0 with `r0` and the retry with `r1`. -/
def twoStepServer (r0 r1 : HttpResponse) : Nat → HttpResponse
  | 0 => r0
  | _ + 1 => r1

def raisedAuthenticationError : Except OICError RespData → Bool
  | .error (.authenticationError _) => true
  | _ => false

def cState0 : ClientState :=
  { auth_token := some "token0", auth_expiration_time := none,
    session_headers := [("Authorization", "Bearer token0"),
      ("Content-Type", "application/json"), ("Accept", "application/json")] }

def cResp401 : HttpResponse :=
  { status_code := 401, json_fields := some [], text := "unauthorized",
    content := "unauthorized" }

def cAuthOk : AuthResponse :=
  { status_code := 200, access_token := some "token1", expires_in := none,
    detail := none, json_ok := true, text := "" }

/-- C2 counterexample: with an authenticated client, a server answering 401
on both the first attempt and the single retry, and a token endpoint that
refreshes successfully, the failure surfaced to the caller is
`OICAPIError` (the generic ≥400 branch, client.py line 279), not
`OICAuthenticationError` as the claim states. -/
theorem c2_counterexample :
    (request_with_retry cState0 (twoStepServer cResp401 cResp401) cAuthOk none
        "https://host/ic/api/x").2.1 =
      .error (.apiError "API request failed with status code 401\n\nunauthorized"
        (some 401)) ∧
    raisedAuthenticationError
      (request_with_retry cState0 (twoStepServer cResp401 cResp401) cAuthOk none
        "https://host/ic/api/x").2.1 = false ∧
    (request_with_retry cState0 (twoStepServer cResp401 cResp401) cAuthOk none
        "https://host/ic/api/x").2.2.refreshes = 1 := by
  refine ⟨by decide, by decide, by decide⟩

/-- C2 (amended): for every request whose first send yields 401 while the
client holds a (truthy) token, and whose token refresh obtains a non-empty
token, exactly one token refresh is performed and the request is retried
exactly once; when the retried request also yields 401, the failure is
surfaced as `OICAPIError` carrying status code 401 — not as
`OICAuthenticationError` — and no further retry occurs (the trace holds
exactly two attempts). -/
theorem c2_second_401_surfaces_as_api_error
    (t0 t1 : String) (exp ein : Option Nat) (hdrs : List (String × String))
    (det : Option String) (jok : Bool) (txt : String) (r0 r1 : HttpResponse)
    (custom : Option (List (String × String))) (url : String)
    (ht0 : ¬ t0 = "") (ht1 : ¬ t1 = "")
    (h0 : r0.status_code = 401) (h1 : r1.status_code = 401) :
    (request_with_retry ⟨some t0, exp, hdrs⟩ (twoStepServer r0 r1)
        ⟨200, some t1, ein, det, jok, txt⟩ custom url).2.2.refreshes = 1 ∧
    (request_with_retry ⟨some t0, exp, hdrs⟩ (twoStepServer r0 r1)
        ⟨200, some t1, ein, det, jok, txt⟩ custom url).2.2.sent_auth.length = 2 ∧
    (request_with_retry ⟨some t0, exp, hdrs⟩ (twoStepServer r0 r1)
        ⟨200, some t1, ein, det, jok, txt⟩ custom url).2.1 =
      .error (.apiError (extract_api_error_msg r1) (some 401)) ∧
    raisedAuthenticationError
      (request_with_retry ⟨some t0, exp, hdrs⟩ (twoStepServer r0 r1)
        ⟨200, some t1, ein, det, jok, txt⟩ custom url).2.1 = false := by
  have hd : (decide (t0 = "")) = false := decide_eq_false ht0
  have hd1 : (decide (t1 = "")) = false := decide_eq_false ht1
  simp only [request_with_retry, prepare_headers, get_auth_token, tokenFalsy,
    authenticate, twoStepServer, handle_response, hd, hd1, h0, h1]
  simp [raisedAuthenticationError, h1]

/-- Witness for C2 (amended) at the concrete double-401 scenario. -/
theorem c2_witness :
    (request_with_retry ⟨some "token0", none, []⟩ (twoStepServer cResp401 cResp401)
        ⟨200, some "token1", none, none, true, ""⟩ none "https://host/ic/api/x").2.2.refreshes = 1 ∧
    (request_with_retry ⟨some "token0", none, []⟩ (twoStepServer cResp401 cResp401)
        ⟨200, some "token1", none, none, true, ""⟩ none "https://host/ic/api/x").2.2.sent_auth.length = 2 ∧
    (request_with_retry ⟨some "token0", none, []⟩ (twoStepServer cResp401 cResp401)
        ⟨200, some "token1", none, none, true, ""⟩ none "https://host/ic/api/x").2.1 =
      .error (.apiError (extract_api_error_msg cResp401) (some 401)) ∧
    raisedAuthenticationError
      (request_with_retry ⟨some "token0", none, []⟩ (twoStepServer cResp401 cResp401)
        ⟨200, some "token1", none, none, true, ""⟩ none "https://host/ic/api/x").2.1 = false :=
  c2_second_401_surfaces_as_api_error "token0" "token1" none none [] none true ""
    cResp401 cResp401 none "https://host/ic/api/x" (by decide) (by decide) rfl rfl

/-- C8: on the 401-triggered retry, `authenticate()` succeeds but returns
`None` (despite its declared `str` return), so `get_auth_token()` evaluates
to `None` and the retried request's explicit per-request `Authorization`
header is the literal string `"Bearer None"`; the freshly obtained token is
stored in the session-level headers (as `"Bearer " ++ t1`), not in the
per-request headers built by `_prepare_headers`. -/
theorem c8_retry_sends_bearer_none
    (t0 t1 : String) (exp ein : Option Nat) (hdrs : List (String × String))
    (det : Option String) (jok : Bool) (txt : String) (r0 r1 : HttpResponse)
    (url : String)
    (ht0 : ¬ t0 = "") (ht1 : ¬ t1 = "") (h0 : r0.status_code = 401) :
    (authenticate ⟨none, exp, hdrs⟩ ⟨200, some t1, ein, det, jok, txt⟩).2 =
      .ok none ∧
    (request_with_retry ⟨some t0, exp, hdrs⟩ (twoStepServer r0 r1)
        ⟨200, some t1, ein, det, jok, txt⟩ none url).2.2.sent_auth =
      ["Bearer " ++ t0, "Bearer None"] ∧
    lookup? (request_with_retry ⟨some t0, exp, hdrs⟩ (twoStepServer r0 r1)
        ⟨200, some t1, ein, det, jok, txt⟩ none url).1.session_headers
      "Authorization" = some ("Bearer " ++ t1) ∧
    (request_with_retry ⟨some t0, exp, hdrs⟩ (twoStepServer r0 r1)
        ⟨200, some t1, ein, det, jok, txt⟩ none url).1.auth_token = some t1 := by
  have hd : (decide (t0 = "")) = false := decide_eq_false ht0
  have hd1 : (decide (t1 = "")) = false := decide_eq_false ht1
  refine ⟨by simp [authenticate, tokenFalsy, hd1], ?_, ?_, ?_⟩ <;>
    simp only [request_with_retry, prepare_headers, get_auth_token, tokenFalsy,
      authenticate, twoStepServer, handle_response, hd, hd1, h0] <;>
    simp [lookup?_dictUpdate, lookupLast?, lookup?, pyShow]

/-- Witness for C8 at a concrete 401-then-retry scenario. -/
theorem c8_witness :
    (authenticate ⟨none, none, []⟩ ⟨200, some "token1", none, none, true, ""⟩).2 =
      .ok none ∧
    (request_with_retry ⟨some "token0", none, []⟩ (twoStepServer cResp401 cResp401)
        ⟨200, some "token1", none, none, true, ""⟩ none "https://host/ic/api/x").2.2.sent_auth =
      ["Bearer " ++ "token0", "Bearer None"] ∧
    lookup? (request_with_retry ⟨some "token0", none, []⟩ (twoStepServer cResp401 cResp401)
        ⟨200, some "token1", none, none, true, ""⟩ none "https://host/ic/api/x").1.session_headers
      "Authorization" = some ("Bearer " ++ "token1") ∧
    (request_with_retry ⟨some "token0", none, []⟩ (twoStepServer cResp401 cResp401)
        ⟨200, some "token1", none, none, true, ""⟩ none "https://host/ic/api/x").1.auth_token =
      some "token1" :=
  c8_retry_sends_bearer_none "token0" "token1" none none [] none true ""
    cResp401 cResp401 "https://host/ic/api/x" (by decide) (by decide) rfl

/-- One of 12 daily zip backups: `oic_full_backup_*.zip`, one day apart,
newest at index 0 (`c3Now` is the time of the run). -/
def c3Entry (i : Nat) : FSEntry :=
  { name := "oic_full_backup_2026010" ++ toString i ++ "_000000.zip",
    is_dir := false, mtime := 1036800 - i * 86400, size := 1000 }

def c3Now : Int := 1036800

def c3FS : BackupFS :=
  { dir_exists := true, entries := (List.range 12).map c3Entry }

/-- C3: the claim says that on 12 daily backups with `retention_count = 5`
and `retention_days = 10` the 5 newest are kept and, among the remaining 7,
exactly those older than 10 days are deleted.  Because workflows/backup.py
never imports `re`, the per-backup parse raises `NameError` (caught and
skipped, lines 2362-2402), so `backups_info` stays empty and the run
reports 0 backups found, marks 0 to keep and 0 to delete, and removes
nothing from the filesystem — with `dry_run` either false or true. -/
theorem c3_prune_never_deletes :
    (prune_old_backups "/backups" c3FS 10 5 false c3Now 77).2 = [] ∧
    lookup? (prune_old_backups "/backups" c3FS 10 5 false c3Now 77).1.details
      "total_backups" = some (.vint 0) ∧
    lookup? (prune_old_backups "/backups" c3FS 10 5 false c3Now 77).1.details
      "backups_to_keep" = some (.vint 0) ∧
    lookup? (prune_old_backups "/backups" c3FS 10 5 false c3Now 77).1.details
      "backups_to_delete" = some (.vint 0) ∧
    (prune_old_backups "/backups" c3FS 10 5 false c3Now 77).1.message =
      "Kept 0 backups (0.0 MB) and deleted 0 old backups (0.0 MB)" ∧
    (prune_old_backups "/backups" c3FS 10 5 true c3Now 77).2 = [] ∧
    c3FS.entries.length = 12 := by
  refine ⟨by decide, by decide, by decide, by decide, by decide, by decide, by decide⟩

end OicDevops
